import Mathlib

/-!
Verification of the png-from-pdf-extracter daemon: a shallow embedding of the
orchestration, connection-management, whitelist, configuration and rendering
services (`src/services/*.py`, `src/models/processing_job.py`, `src/config.py`)
together with theorems settling the specified behavioural claims.

Conventions of the embedding:
* Python strings are Lean `String`s; `x in s` on strings is `pyIn`.
* Machine integers are `Int`/`Nat` (no overflow is relevant anywhere here).
* Fallible Python code returns `Except`; `raise` is an `.error` value.
* Network, filesystem and subprocess interactions are supplied as explicit
  environment values (oracles); everything the repository computes from those
  values is translated from the source.
* `datetime.now` is an explicit clock argument (`Nat` timestamps).
-/

namespace PdfMail

/-- Python `pat in s` on lists of characters: some suffix of `s` starts with
`pat`. -/
def seqOccurs (pat : List Char) : List Char → Bool
  | [] => List.isPrefixOf pat []
  | c :: rest => List.isPrefixOf pat (c :: rest) || seqOccurs pat rest

/-- Python `pat in s` for strings. -/
def pyIn (pat s : String) : Bool := seqOccurs pat.toList s.toList

/-- Python `s.lower()`, as a character list (ASCII lowering suffices for the
keyword tests the code performs). -/
def lowerChars (s : String) : List Char := s.toList.map Char.toLower

/-- Python `pat in s.lower()` where `pat` is a lowercase literal. -/
def inLower (pat s : String) : Bool := seqOccurs pat.toList (lowerChars s)

/-! ### Regular expressions

`whitelist_service.py` compiles one `re` pattern and uses `pattern.match`,
which anchors at the start of the string and does not require the match to
consume the whole string.  The compiled pattern is embedded as a regular
expression syntax tree; `reMatch` is the semantics of `pattern.match(s) is
not None`. -/

/-- Syntax of the compiled whitelist pattern. -/
inductive Regex where
  | fail
  | eps
  | chr (c : Char)
  | alt (r s : Regex)
  | cat (r s : Regex)
  | star (r : Regex)
deriving DecidableEq, Repr

/-- Whether the regex accepts the empty string. -/
def Regex.nullable : Regex → Bool
  | .fail => false
  | .eps => true
  | .chr _ => false
  | .alt r s => r.nullable || s.nullable
  | .cat r s => r.nullable && s.nullable
  | .star _ => true

/-- Brzozowski derivative. -/
def Regex.deriv : Regex → Char → Regex
  | .fail, _ => .fail
  | .eps, _ => .fail
  | .chr c, a => if a = c then .eps else .fail
  | .alt r s, a => .alt (r.deriv a) (s.deriv a)
  | .cat r s, a =>
      if r.nullable then .alt (.cat (r.deriv a) s) (s.deriv a)
      else .cat (r.deriv a) s
  | .star r, a => .cat (r.deriv a) (.star r)

/-- Whole-string acceptance (the language of the pattern). -/
def Regex.accepts : Regex → List Char → Bool
  | r, [] => r.nullable
  | r, c :: cs => (r.deriv c).accepts cs

/-- Python `pattern.match(s) is not None`: the pattern matches anchored at the
start of `s`, consuming some (possibly empty, possibly proper) leading
segment. -/
def Regex.reMatch : Regex → List Char → Bool
  | r, [] => r.nullable
  | r, c :: cs => r.nullable || (r.deriv c).reMatch cs

/-- `reMatch` succeeds exactly when some leading segment of the input is in
the pattern's language. -/
theorem Regex.reMatch_eq_true_iff (r : Regex) (s : List Char) :
    r.reMatch s = true ↔ ∃ p q, s = p ++ q ∧ r.accepts p = true := by
  induction s generalizing r with
  | nil =>
    simp only [Regex.reMatch]
    constructor
    · intro h; exact ⟨[], [], rfl, h⟩
    · rintro ⟨p, q, hs, hacc⟩
      rcases List.append_eq_nil.mp hs.symm with ⟨rfl, rfl⟩
      exact hacc
  | cons c cs ih =>
    simp only [Regex.reMatch, Bool.or_eq_true]
    constructor
    · rintro (hn | hm)
      · exact ⟨[], c :: cs, rfl, hn⟩
      · rcases (ih _).mp hm with ⟨p, q, hs, hacc⟩
        exact ⟨c :: p, q, by simpa using hs, hacc⟩
    · rintro ⟨p, q, hs, hacc⟩
      cases p with
      | nil =>
        exact Or.inl hacc
      | cons c' p' =>
        rcases List.cons_eq_cons.mp hs with ⟨rfl, hcs⟩
        exact Or.inr ((ih _).mpr ⟨p', q, hcs, hacc⟩)

/-! ### Whitelist service (`src/services/whitelist_service.py`) -/

/-- The whitelist service holds the compiled sender pattern. -/
structure WhitelistService where
  compiled_pattern : Regex

/-- `WhitelistService.is_whitelisted` (lines 26–38): an empty address is
falsy (`if not email_address: return False`); otherwise the result is
`self.compiled_pattern.match(email_address) is not None`. -/
def WhitelistService.is_whitelisted (svc : WhitelistService)
    (email_address : String) : Bool :=
  if email_address = "" then false
  else svc.compiled_pattern.reMatch email_address.toList

/-! ### PDF converter (`src/services/pdf_converter.py`) -/

/-- The exception hierarchy raised by `convert_pdf_to_png`:
`PDFPasswordProtectedError`, `PDFCorruptedError` and the base
`PDFConversionError`, each carrying the message text built from the raw
diagnostic. -/
inductive PDFConvError where
  | passwordProtected (diag : String)
  | corrupted (diag : String)
  | generic (diag : String)
deriving DecidableEq, Repr

/-- Outcome of the `subprocess.run` invocation of ImageMagick: a completed
process with exit code and captured stderr, `subprocess.TimeoutExpired`, or
`FileNotFoundError` (tool not installed). -/
inductive SubprocResult where
  | completed (returncode : Int) (stderr : String)
  | timedOut
  | toolNotFound
deriving DecidableEq, Repr

/-- Environment for one `convert_pdf_to_png` call: whether the input path
exists, the subprocess outcome, and the (unsorted) filenames produced by the
output glob. -/
structure ConvertEnv where
  inputExists : Bool
  run : SubprocResult
  outputFiles : List String

/-- `PDFConverterService.convert_pdf_to_png` (lines 50–160).  Returns the
produced pages as `(filename, page_number)` pairs, numbered sequentially from
1 in lexicographic filename order, or the raised conversion error.  The
stderr classification on non-zero exit (lines 100–122): "password" or
"encrypted" in the lowered stderr raises `PDFPasswordProtectedError`;
otherwise "corrupt", "invalid" or "error" raises `PDFCorruptedError`;
otherwise the generic `PDFConversionError` carries the raw stderr. -/
def convert_pdf_to_png (env : ConvertEnv) :
    Except PDFConvError (List (String × Nat)) :=
  if env.inputExists = false then
    .error (.generic "PDF file not found")
  else
    match env.run with
    | .timedOut => .error (.generic "PDF conversion timed out")
    | .toolNotFound => .error (.generic "ImageMagick command not found")
    | .completed rc stderr =>
      if rc ≠ 0 then
        if inLower "password" stderr || inLower "encrypted" stderr then
          .error (.passwordProtected stderr)
        else if inLower "corrupt" stderr || inLower "invalid" stderr
            || inLower "error" stderr then
          .error (.corrupted stderr)
        else
          .error (.generic stderr)
      else
        let png_files := env.outputFiles.mergeSort (· ≤ ·)
        if png_files = [] then
          .error (.generic "No PNG files generated from PDF")
        else
          .ok (png_files.enum.map fun p => (p.2, p.1 + 1))

/-! ### IMAP connection management (`src/services/imap_service.py`) -/

/-- The keyword test `connect` applies to an `imaplib.IMAP4.error` message:
`"authentication" in str(e).lower() or "login" in str(e).lower()`. -/
def authKeyword (msg : String) : Bool :=
  inLower "authentication" msg || inLower "login" msg

/-- Outcome of attempting one connection tier (constructor plus `login`):
success, an `ssl.SSLError`, an `imaplib.IMAP4.error` with its message, or any
other exception. -/
inductive TierOutcome where
  | success
  | sslError (msg : String)
  | imap4Error (msg : String)
  | otherError (msg : String)
deriving DecidableEq, Repr

/-- Result of `IMAPService.connect`: normal return, a raised
`IMAPAuthenticationError`, or a raised `IMAPConnectionError`. -/
inductive ConnectResult where
  | ok
  | authError (msg : String)
  | connError (msg : String)
deriving DecidableEq, Repr

/-- Second tier of `IMAPService.connect` (lines 79–91): plain `IMAP4` with a
suppressed `starttls` upgrade, then `login`.  An `imaplib.IMAP4.error`
carrying an authentication keyword raises `IMAPAuthenticationError`; every
other failure raises `IMAPConnectionError`. -/
def connectTier2 : TierOutcome → ConnectResult
  | .success => .ok
  | .imap4Error m =>
      if authKeyword m then .authError m else .connError m
  | .sslError m => .connError m
  | .otherError m => .connError m

/-- `IMAPService.connect` (lines 46–91): tier 1 is `IMAP4_SSL` plus `login`.
`ssl.SSLError` and unclassified exceptions fall through to tier 2, as does an
`imaplib.IMAP4.error` without an authentication keyword; with the keyword,
`IMAPAuthenticationError` is raised immediately. -/
def connect (t1 t2 : TierOutcome) : ConnectResult :=
  match t1 with
  | .success => .ok
  | .sslError _ => connectTier2 t2
  | .imap4Error m =>
      if authKeyword m then .authError m else connectTier2 t2
  | .otherError _ => connectTier2 t2

/-- The `while` guard of `connect_with_backoff` is
`max_retries is None or attempt < max_retries`; this is its negation. -/
def retryBudgetSpent (max_retries : Option Nat) (attempt : Nat) : Bool :=
  match max_retries with
  | none => false
  | some m => attempt ≥ m

/-- Loop of `IMAPService.connect_with_backoff` (lines 105–134), driven by the
per-attempt tier outcomes.  Returns the delays slept after each failed
attempt (in order) and the final result: `some .ok` on success, `some
(.authError _)` when an `IMAPAuthenticationError` propagates unretried, `some
(.connError _)` when the retry budget is exhausted, and `none` when the
supplied outcome trace ends with the loop still running. -/
def connect_with_backoff_loop (max_delay : Nat) (max_retries : Option Nat) :
    List (TierOutcome × TierOutcome) → Nat → List Nat × Option ConnectResult
  | outcomes, attempt =>
    if retryBudgetSpent max_retries attempt then
      ([], some (.connError "IMAP connection failed after max_retries attempts"))
    else
      match outcomes with
      | [] => ([], none)
      | (t1, t2) :: rest =>
        match connect t1 t2 with
        | .ok => ([], some .ok)
        | .authError m => ([], some (.authError m))
        | .connError _ =>
          let delay := min (60 * 2 ^ attempt) max_delay
          let res := connect_with_backoff_loop max_delay max_retries rest (attempt + 1)
          (delay :: res.1, res.2)

/-- `IMAPService.connect_with_backoff`: the loop entered with `attempt = 0`,
`base_delay = 60` and `max_delay = self.config.max_retry_interval_seconds`. -/
def connect_with_backoff (max_delay : Nat) (max_retries : Option Nat)
    (outcomes : List (TierOutcome × TierOutcome)) :
    List Nat × Option ConnectResult :=
  connect_with_backoff_loop max_delay max_retries outcomes 0

/-- A `connect` outcome pair representing a failed (non-authentication)
attempt: both tiers refuse the TCP connection. -/
def refusedAttempt : TierOutcome × TierOutcome :=
  (.otherError "connection refused", .otherError "connection refused")

/-! ### Configuration (`src/config.py`) -/

/-- The raw field values a `Configuration` is constructed from.  Ports and
intervals are Python ints, hence `Int`. -/
structure Configuration where
  imap_host : String
  imap_port : Int
  imap_username : String
  imap_password : String
  smtp_host : String
  smtp_port : Int
  smtp_username : String
  smtp_password : String
  sender_whitelist_regex : String
  cc_addresses : List String
  polling_interval_seconds : Int
  max_retry_interval_seconds : Int
deriving DecidableEq, Repr

/-- `Configuration._validate` (lines 44–79): the first raised `ValueError`'s
message, or `none`.  Checks, in source order: the seven required string
fields are non-empty, both ports lie in 1–65535, the polling interval is at
least 10, and the max retry interval is at least the polling interval. -/
def Configuration.validate (c : Configuration) : Option String :=
  if c.imap_host = "" then some "imap_host must be a non-empty string"
  else if c.imap_username = "" then some "imap_username must be a non-empty string"
  else if c.imap_password = "" then some "imap_password must be a non-empty string"
  else if c.smtp_host = "" then some "smtp_host must be a non-empty string"
  else if c.smtp_username = "" then some "smtp_username must be a non-empty string"
  else if c.smtp_password = "" then some "smtp_password must be a non-empty string"
  else if c.sender_whitelist_regex = "" then
    some "sender_whitelist_regex must be a non-empty string"
  else if ¬(1 ≤ c.imap_port ∧ c.imap_port ≤ 65535) then
    some "imap_port must be in range 1-65535"
  else if ¬(1 ≤ c.smtp_port ∧ c.smtp_port ≤ 65535) then
    some "smtp_port must be in range 1-65535"
  else if c.polling_interval_seconds < 10 then
    some "polling_interval_seconds must be at least 10"
  else if c.max_retry_interval_seconds < c.polling_interval_seconds then
    some "max_retry_interval_seconds must be at least polling_interval_seconds"
  else none

/-- `Configuration.__post_init__` (lines 35–42): run `_validate`, then compile
the whitelist regex; `regex_compiles` supplies whether `re.compile` succeeds
on `sender_whitelist_regex`.  `none` means construction succeeded. -/
def Configuration.post_init (c : Configuration) (regex_compiles : Bool) :
    Option String :=
  match c.validate with
  | some e => some e
  | none =>
    if regex_compiles then none
    else some "Invalid SENDER_WHITELIST_REGEX"

/-! ### Data model (`src/models/*.py`) -/

/-- `EmailMessage` as used by the orchestrator: mailbox UID, sender address,
subject and plain-text body (raw bytes and arrival timestamp are carried by
the fetch environment and not consulted by the orchestration logic modelled
here). -/
structure EmailMessage where
  uid : Nat
  sender : String
  subject : String
  body : String
deriving DecidableEq, Repr

/-- `PDFAttachment`: original filename, sanitized name, byte content, size
and the page count filled in after conversion. -/
structure PDFAttachment where
  filename : String
  sanitized_name : String
  content : List Nat
  size_bytes : Nat
  page_count : Option Nat := none
deriving DecidableEq, Repr

/-- `PNGImage` as handled by the orchestrator: attachment filename, source
PDF and 1-based page number. -/
structure PNGImage where
  filename : String
  source_pdf : String
  page_number : Nat
deriving DecidableEq, Repr

/-- The exceptions flowing through the orchestrator. -/
inductive PyExc where
  | imapError (msg : String)
  | smtpError (msg : String)
  | pdfConv (e : PDFConvError)
  | runtimeError (msg : String)
deriving DecidableEq, Repr

/-- `JobStatus` (`src/models/processing_job.py` lines 12–18). -/
inductive JobStatus where
  | pending
  | processing
  | completed
  | failed
deriving DecidableEq, Repr

/-- `ProcessingJob` (lines 21–77).  Timestamps are `Nat` clock readings. -/
structure ProcessingJob where
  email_uid : Nat
  pdf_attachments : List PDFAttachment
  png_images : List PNGImage
  status : JobStatus
  error : Option PyExc
  started_at : Nat
  completed_at : Option Nat
  duration_seconds : Option Int
deriving DecidableEq, Repr

/-- Constructing `ProcessingJob(email_message=message)` with the dataclass
defaults: PENDING, no error, `started_at = now`, nothing completed. -/
def ProcessingJob.mk_job (uid now : Nat) : ProcessingJob :=
  ⟨uid, [], [], .pending, none, now, none, none⟩

/-- `ProcessingJob.mark_processing` (lines 58–60). -/
def ProcessingJob.mark_processing (j : ProcessingJob) : ProcessingJob :=
  { j with status := .processing }

/-- `ProcessingJob.mark_completed` (lines 62–66). -/
def ProcessingJob.mark_completed (j : ProcessingJob) (now : Nat) : ProcessingJob :=
  { j with status := .completed, completed_at := some now,
           duration_seconds := some ((now : Int) - (j.started_at : Int)) }

/-- `ProcessingJob.mark_failed` (lines 68–77). -/
def ProcessingJob.mark_failed (j : ProcessingJob) (e : PyExc) (now : Nat) :
    ProcessingJob :=
  { j with status := .failed, error := some e, completed_at := some now,
           duration_seconds := some ((now : Int) - (j.started_at : Int)) }

/-- One call against a `ProcessingJob` after construction. -/
inductive JobOp where
  | markProcessing
  | markCompleted (now : Nat)
  | markFailed (e : PyExc) (now : Nat)
deriving DecidableEq, Repr

/-- Apply one operation. -/
def JobOp.applyTo (j : ProcessingJob) : JobOp → ProcessingJob
  | .markProcessing => j.mark_processing
  | .markCompleted now => j.mark_completed now
  | .markFailed e now => j.mark_failed e now

/-- Run a sequence of operations against a job. -/
def runJobOps (j : ProcessingJob) (ops : List JobOp) : ProcessingJob :=
  ops.foldl JobOp.applyTo j

/-! ### Job orchestrator (`src/services/job_processor.py`) -/

/-- Environment for one `process_next_email` call: the outcome of every
collaborator invocation the method can make.  `fetchResult` is
`imap_service.fetch_unseen_messages()`, `whitelisted` is
`whitelist_service.is_whitelisted`, `extracted` is
`_extract_pdf_attachments`, `convertResult` is
`pdf_converter.convert_pdf_to_png` per attachment, `replyResult` is
`smtp_service.send_reply_with_attachments`, `notifyResult` is
`smtp_service.send_error_notification`, and `deleteResult` is
`imap_service.delete_message` by UID.  `tStart`/`tEnd` are the clock readings
at job creation and at the terminal mark. -/
structure ProcEnv where
  fetchResult : Except PyExc (List EmailMessage)
  whitelisted : String → Bool
  extracted : EmailMessage → List PDFAttachment
  convertResult : PDFAttachment → Except PyExc (List PNGImage)
  replyResult : Except PyExc Unit
  notifyResult : Except PyExc Unit
  deleteResult : Nat → Except PyExc Unit
  tStart : Nat
  tEnd : Nat

/-- Observable trace of one `process_next_email` call: UIDs passed to
`delete_message` (in call order), whether `send_reply_with_attachments` was
called and whether it returned, whether `send_error_notification` was
called, whether a `ProcessingJob` was constructed, the job value at the end
of the call, and the exception (if any) escaping the method. -/
structure CycleTrace where
  deleteCalls : List Nat
  replyAttempted : Bool
  replySent : Bool
  notifyAttempted : Bool
  jobCreated : Bool
  finalJob : Option ProcessingJob
  raised : Option PyExc
deriving DecidableEq, Repr

/-- The conversion loop of `process_next_email` (lines 108–124): convert each
attachment in order, setting its `page_count` and accumulating the produced
images, stopping at the first raised exception.  Returns the attachment list
as mutated so far, the images appended to the job so far, and the escaping
exception if any. -/
def convertFold (f : PDFAttachment → Except PyExc (List PNGImage)) :
    List PDFAttachment → List PDFAttachment × List PNGImage × Option PyExc
  | [] => ([], [], none)
  | pdf :: rest =>
    match f pdf with
    | .error e => (pdf :: rest, [], some e)
    | .ok pngs =>
      let res := convertFold f rest
      ({ pdf with page_count := some pngs.length } :: res.1,
       pngs ++ res.2.1, res.2.2)

/-- `JobProcessorService.process_next_email` (lines 51–183), step for step:
fetch (a raised error escapes via the outer handler's re-raise); stop when
no messages; take only the first message; a non-whitelisted sender is
deleted immediately and the method returns (a delete failure escapes via the
outer handler); otherwise a `ProcessingJob` is constructed and marked
PROCESSING, attachments are extracted, an attachment-less message is deleted
inside the inner `try` and the method returns; otherwise the attachments are
converted, the reply sent, the job marked COMPLETED and the message deleted.
Any exception escaping the inner `try` marks the job FAILED, attempts
`send_error_notification` (its own failure only logged), and does not delete
the message. -/
def process_next_email (env : ProcEnv) : CycleTrace :=
  match env.fetchResult with
  | .error e => ⟨[], false, false, false, false, none, some e⟩
  | .ok [] => ⟨[], false, false, false, false, none, none⟩
  | .ok (message :: _) =>
    if env.whitelisted message.sender = false then
      match env.deleteResult message.uid with
      | .ok _ => ⟨[message.uid], false, false, false, false, none, none⟩
      | .error e => ⟨[message.uid], false, false, false, false, none, some e⟩
    else
      let job0 := (ProcessingJob.mk_job message.uid env.tStart).mark_processing
      let pdfs := env.extracted message
      if pdfs = [] then
        match env.deleteResult message.uid with
        | .ok _ => ⟨[message.uid], false, false, false, true, some job0, none⟩
        | .error e =>
          ⟨[message.uid], false, false, true, true,
           some (job0.mark_failed e env.tEnd), none⟩
      else
        let job1 := { job0 with pdf_attachments := pdfs }
        let conv := convertFold env.convertResult pdfs
        let job2 := { job1 with pdf_attachments := conv.1, png_images := conv.2.1 }
        match conv.2.2 with
        | some e =>
          ⟨[], false, false, true, true, some (job2.mark_failed e env.tEnd), none⟩
        | none =>
          match env.replyResult with
          | .error e =>
            ⟨[], true, false, true, true, some (job2.mark_failed e env.tEnd), none⟩
          | .ok _ =>
            let job3 := job2.mark_completed env.tEnd
            match env.deleteResult message.uid with
            | .ok _ => ⟨[message.uid], true, true, false, true, some job3, none⟩
            | .error e =>
              ⟨[message.uid], true, true, true, true,
               some (job3.mark_failed e env.tEnd), none⟩

/-! ### Daemon loop (`src/services/job_processor.py`, `run_daemon`,
lines 222–260)

`run_daemon`'s handler chain is `except IMAPConnectionError`, `except
KeyboardInterrupt: raise`, `except Exception: log and continue`.  Python
resolves the class name of an `except` clause only when an exception is
being handled, against the enclosing module's global namespace and then the
builtins; a failed lookup raises `NameError` at that point, abandoning the
handler chain.  The embedding therefore carries the names actually bound in
the `job_processor` module (its imports, lines 3–19, plus its own
module-level bindings) and the Python builtins the function refers to. -/

/-- Exception classes relevant to the daemon loop, including Python
builtins. -/
inductive PyClassId where
  | baseExceptionCls
  | exceptionCls
  | keyboardInterruptCls
  | nameErrorCls
  | runtimeErrorCls
  | imapErrorCls
  | imapConnectionErrorCls
  | imapAuthenticationErrorCls
deriving DecidableEq, Repr

/-- Single-inheritance parent of each class (`KeyboardInterrupt` derives
`BaseException`, not `Exception`; the `IMAPError` family is declared in
`src/services/imap_service.py` lines 19–28). -/
def PyClassId.parent : PyClassId → Option PyClassId
  | .baseExceptionCls => none
  | .exceptionCls => some .baseExceptionCls
  | .keyboardInterruptCls => some .baseExceptionCls
  | .nameErrorCls => some .exceptionCls
  | .runtimeErrorCls => some .exceptionCls
  | .imapErrorCls => some .exceptionCls
  | .imapConnectionErrorCls => some .imapErrorCls
  | .imapAuthenticationErrorCls => some .imapErrorCls

/-- `isinstance`-style subclass test, walking the parent chain (fuelled; the
hierarchy has depth at most 3). -/
def PyClassId.isSubclassOf : PyClassId → PyClassId → Bool :=
  fun c target => go 8 c target
where
  go : Nat → PyClassId → PyClassId → Bool
    | 0, _, _ => false
    | fuel + 1, c, target =>
      c = target ||
        match c.parent with
        | none => false
        | some p => go fuel p target

/-- The global names bound in the `job_processor` module: its imports
(lines 3–17) and its module-level definitions (lines 19, 22). -/
def jobProcessorGlobals : List String :=
  ["email", "tempfile", "time", "Path", "Configuration", "PDFAttachment",
   "JobStatus", "ProcessingJob", "IMAPService", "PDFConverterService",
   "SMTPService", "WhitelistService", "sanitize_filename", "get_logger",
   "logger", "JobProcessorService"]

/-- Python builtin exception names visible in every module. -/
def pythonBuiltinNames : List String :=
  ["BaseException", "Exception", "KeyboardInterrupt", "NameError",
   "RuntimeError", "ValueError", "TypeError"]

/-- Name resolution inside `run_daemon`: module globals, then builtins. -/
def resolvesInJobProcessor (n : String) : Bool :=
  jobProcessorGlobals.contains n || pythonBuiltinNames.contains n

/-- What one pass of the `while True` body of `run_daemon` does with the
cycle's outcome. -/
inductive DaemonStep where
  | sleptAndContinued (reconnectInvoked : Bool)
  | exitedWith (cls : PyClassId)
deriving DecidableEq, Repr

/-- One iteration of `run_daemon` (lines 236–260), given the exception class
(if any) escaping `process_next_email`.  With no exception the loop sleeps
and continues.  With an exception, the first handler's class expression
`IMAPConnectionError` is resolved; an unresolvable name raises `NameError`,
which escapes `run_daemon`.  A resolved match invokes
`imap_service.connect_with_backoff` and continues whether or not the
reconnect succeeds; `KeyboardInterrupt` is re-raised; any other `Exception`
is logged and the loop continues. -/
def run_daemon_cycle (cycleException : Option PyClassId) : DaemonStep :=
  match cycleException with
  | none => .sleptAndContinued false
  | some cls =>
    if resolvesInJobProcessor "IMAPConnectionError" = false then
      .exitedWith .nameErrorCls
    else if cls.isSubclassOf .imapConnectionErrorCls then
      .sleptAndContinued true
    else if cls.isSubclassOf .keyboardInterruptCls then
      .exitedWith cls
    else if cls.isSubclassOf .exceptionCls then
      .sleptAndContinued false
    else
      .exitedWith cls

/-! ### Connection guards (`imap_service.py`, `smtp_service.py`)

The four data operations all begin with `if not self.connection: raise …`
and none of them assigns `self.connection`; the post-guard protocol exchange
is supplied as an environment value. -/

/-- `IMAPService` connection state: `self.connection` is an `imaplib`
session or `None`. -/
structure IMAPServiceState where
  connection : Option Unit

/-- `SMTPService` connection state. -/
structure SMTPServiceState where
  connection : Option Unit

/-- `IMAPService.fetch_unseen_messages` (lines 136–207): guard on
`self.connection`, then the INBOX search/fetch exchange (`server`), with any
exception wrapped in `IMAPError`. -/
def fetch_unseen_messages (st : IMAPServiceState)
    (server : Except String (List EmailMessage)) :
    Except PyExc (List EmailMessage) × IMAPServiceState :=
  match st.connection with
  | none =>
    (.error (.imapError "IMAP connection not established. Call connect() first."), st)
  | some _ =>
    match server with
    | .ok msgs => (.ok msgs, st)
    | .error m => (.error (.imapError ("Failed to fetch unseen messages: " ++ m)), st)

/-- `IMAPService.delete_message` (lines 209–229): guard, then STORE/EXPUNGE,
with any exception wrapped in `IMAPError`. -/
def delete_message (st : IMAPServiceState) (uid : Nat)
    (server : Except String Unit) : Except PyExc Unit × IMAPServiceState :=
  match st.connection with
  | none =>
    (.error (.imapError "IMAP connection not established. Call connect() first."), st)
  | some _ =>
    match server with
    | .ok _ => (.ok (), st)
    | .error m =>
      (.error (.imapError ("Failed to delete message UID " ++ toString uid ++ ": " ++ m)), st)

/-- `SMTPService.send_reply_with_attachments` (lines 97–164): guard, then
message assembly and `sendmail`, with a send failure wrapped in
`SMTPError`. -/
def send_reply_with_attachments (st : SMTPServiceState)
    (server : Except String Unit) : Except PyExc Unit × SMTPServiceState :=
  match st.connection with
  | none =>
    (.error (.smtpError "SMTP connection not established. Call connect() first."), st)
  | some _ =>
    match server with
    | .ok _ => (.ok (), st)
    | .error m => (.error (.smtpError ("Failed to send email: " ++ m)), st)

/-- `SMTPService.send_error_notification` (lines 166–239): guard, then body
assembly and `sendmail`, with a send failure wrapped in `SMTPError`. -/
def send_error_notification (st : SMTPServiceState)
    (server : Except String Unit) : Except PyExc Unit × SMTPServiceState :=
  match st.connection with
  | none =>
    (.error (.smtpError "SMTP connection not established. Call connect() first."), st)
  | some _ =>
    match server with
    | .ok _ => (.ok (), st)
    | .error m => (.error (.smtpError ("Failed to send error notification: " ++ m)), st)

/-! ## Claims -/

/-- C7: `is_whitelisted` returns false for the empty address, and otherwise
returns true iff the compiled pattern matches anchored at the start of the
address — a prefix match: an address a leading segment of which is in the
pattern's language is accepted even if trailing characters differ, and an
address with no match at position 0 is rejected. -/
theorem c7_whitelist_anchored (svc : WhitelistService) (addr : String) :
    svc.is_whitelisted addr = true ↔
      addr ≠ "" ∧ ∃ p q, addr.toList = p ++ q ∧
        svc.compiled_pattern.accepts p = true := by
  unfold WhitelistService.is_whitelisted
  by_cases h : addr = "" <;> simp [h, Regex.reMatch_eq_true_iff]

/-- A failed, retryable connect outcome. -/
def ConnectResult.isConnFailure : ConnectResult → Bool
  | .connError _ => true
  | _ => false

theorem connect_with_backoff_loop_delays (max_delay : Nat)
    (outcomes : List (TierOutcome × TierOutcome))
    (h : ∀ o ∈ outcomes, (connect o.1 o.2).isConnFailure = true) :
    ∀ attempt, (connect_with_backoff_loop max_delay none outcomes attempt).1 =
      (List.range outcomes.length).map
        (fun i => min (60 * 2 ^ (attempt + i)) max_delay) := by
  induction outcomes with
  | nil =>
    intro attempt
    simp [connect_with_backoff_loop, retryBudgetSpent]
  | cons o rest ih =>
    intro attempt
    have ho := h o (by simp)
    have hrest : ∀ o' ∈ rest, (connect o'.1 o'.2).isConnFailure = true :=
      fun o' h' => h o' (by simp [h'])
    obtain ⟨t1, t2⟩ := o
    cases hc : connect t1 t2 with
    | ok => rw [hc] at ho; exact absurd ho (by simp [ConnectResult.isConnFailure])
    | authError m => rw [hc] at ho; exact absurd ho (by simp [ConnectResult.isConnFailure])
    | connError m =>
      simp only [connect_with_backoff_loop, retryBudgetSpent, hc]
      rw [ih hrest (attempt + 1)]
      rw [List.length_cons, List.range_succ_eq_map, List.map_cons, List.map_map]
      refine congrArg₂ _ (by simp) ?_
      refine congrArg₂ _ ?_ rfl
      funext i
      simp only [Function.comp_apply, Nat.succ_eq_add_one]
      have he : attempt + 1 + i = attempt + (i + 1) := by omega
      rw [he]

/-- C5: for every attempt number n ≥ 1, the delay slept after the n-th
consecutive failed connect is min(60 × 2^(n-1), ceiling) — the delays list
of a run whose every attempt fails is exactly that schedule — and with
ceiling 900 the successive delays are 60, 120, 240, 480, 900, 900, 900. -/
theorem c5_backoff_schedule :
    (∀ (max_delay : Nat) (outcomes : List (TierOutcome × TierOutcome)),
       (∀ o ∈ outcomes, (connect o.1 o.2).isConnFailure = true) →
       (connect_with_backoff max_delay none outcomes).1 =
         (List.range outcomes.length).map fun n => min (60 * 2 ^ n) max_delay)
    ∧ (connect_with_backoff 900 none (List.replicate 7 refusedAttempt)).1 =
        [60, 120, 240, 480, 900, 900, 900] := by
  constructor
  · intro max_delay outcomes h
    have := connect_with_backoff_loop_delays max_delay outcomes h 0
    simpa [connect_with_backoff] using this
  · decide

/-- C5 witness: a concrete all-failing run with ceiling 400 follows the
schedule. -/
theorem c5_backoff_schedule_witness :
    (connect_with_backoff 400 none (List.replicate 3 refusedAttempt)).1 =
      (List.range (List.replicate 3 refusedAttempt).length).map
        fun n => min (60 * 2 ^ n) 400 :=
  c5_backoff_schedule.1 400 (List.replicate 3 refusedAttempt) (by decide)

/-- C6: an authentication rejection at either tier of `connect` raises
`IMAPAuthenticationError` immediately and never falls through to the other
tier, and `connect_with_backoff` never retries after it: the failure
propagates with no delay slept, regardless of the remaining outcomes and of
the retry budget. -/
theorem c6_auth_terminal :
    (∀ (m : String) (t2 : TierOutcome), authKeyword m = true →
       connect (.imap4Error m) t2 = .authError m)
    ∧ (∀ (m s : String), authKeyword m = true →
       connect (.sslError s) (.imap4Error m) = .authError m)
    ∧ (∀ (max_delay : Nat) (max_retries : Option Nat) (t1 t2 : TierOutcome)
         (rest : List (TierOutcome × TierOutcome)) (m : String),
       connect t1 t2 = .authError m →
       retryBudgetSpent max_retries 0 = false →
       connect_with_backoff max_delay max_retries ((t1, t2) :: rest) =
         ([], some (.authError m))) := by
  refine ⟨fun m t2 h => ?_, fun m s h => ?_, ?_⟩
  · simp [connect, h]
  · simp [connect, connectTier2, h]
  · intro max_delay max_retries t1 t2 rest m hconn hbudget
    simp [connect_with_backoff, connect_with_backoff_loop, hbudget, hconn]

/-- C6 witness: a concrete tier-1 authentication rejection aborts `connect`
and propagates unretried through `connect_with_backoff` with budget
remaining. -/
theorem c6_auth_terminal_witness :
    connect (.imap4Error "LOGIN failed") (.otherError "x") =
      .authError "LOGIN failed"
    ∧ connect_with_backoff 900 (some 5)
        [(.imap4Error "LOGIN failed", .otherError "x"),
         refusedAttempt] = ([], some (.authError "LOGIN failed")) :=
  ⟨c6_auth_terminal.1 "LOGIN failed" (.otherError "x") (by decide),
   c6_auth_terminal.2.2 900 (some 5) (.imap4Error "LOGIN failed")
     (.otherError "x") [refusedAttempt] "LOGIN failed"
     (c6_auth_terminal.1 "LOGIN failed" (.otherError "x") (by decide))
     (by decide)⟩

/-- C8: on every renderer invocation that exits non-zero, the raised failure
is determined by the diagnostic text: "password" or "encrypted" gives
`PDFPasswordProtectedError` (taking precedence even when corruption words
also appear); otherwise "corrupt", "invalid" or "error" gives
`PDFCorruptedError`; otherwise the generic `PDFConversionError` carrying the
raw diagnostic. -/
theorem c8_stderr_classification (env : ConvertEnv) (rc : Int) (stderr : String)
    (hin : env.inputExists = true) (hrun : env.run = .completed rc stderr)
    (hrc : rc ≠ 0) :
    ((inLower "password" stderr || inLower "encrypted" stderr) = true →
       convert_pdf_to_png env = .error (.passwordProtected stderr))
    ∧ ((inLower "password" stderr || inLower "encrypted" stderr) = false →
       (inLower "corrupt" stderr || inLower "invalid" stderr
         || inLower "error" stderr) = true →
       convert_pdf_to_png env = .error (.corrupted stderr))
    ∧ ((inLower "password" stderr || inLower "encrypted" stderr) = false →
       (inLower "corrupt" stderr || inLower "invalid" stderr
         || inLower "error" stderr) = false →
       convert_pdf_to_png env = .error (.generic stderr)) := by
  have key : convert_pdf_to_png env =
      (if inLower "password" stderr || inLower "encrypted" stderr then
         .error (.passwordProtected stderr)
       else if inLower "corrupt" stderr || inLower "invalid" stderr
           || inLower "error" stderr then
         .error (.corrupted stderr)
       else .error (.generic stderr)) := by
    unfold convert_pdf_to_png
    rw [hin, hrun]
    simp [hrc]
  refine ⟨fun h1 => ?_, fun h1 h2 => ?_, fun h1 h2 => ?_⟩
  · rw [key, if_pos h1]
  · rw [key, if_neg (by simp [h1]), if_pos h2]
  · rw [key, if_neg (by simp [h1]), if_neg (by simp [h2])]

/-- C8 witness: a non-zero exit whose stderr mentions both encryption and
"error" is classified `PDFPasswordProtectedError` (precedence), on a
concrete environment. -/
theorem c8_stderr_classification_witness :
    convert_pdf_to_png ⟨true, .completed 1 "Error: PDF is Encrypted", []⟩ =
      .error (.passwordProtected "Error: PDF is Encrypted") :=
  (c8_stderr_classification ⟨true, .completed 1 "Error: PDF is Encrypted", []⟩
    1 "Error: PDF is Encrypted" rfl rfl (by decide)).1 (by decide)

/-- A configuration whose intervals satisfy the spec's two conditions but
whose IMAP port is 0. -/
def badPortConfig : Configuration :=
  ⟨"imap.example.com", 0, "user", "pw", "smtp.example.com", 587, "user", "pw",
   "abc", [], 60, 900⟩

/-- C9 counterexample: construction fails on a configuration whose poll
interval and backoff ceiling are both valid, because the IMAP port is out of
range — so "construction succeeds in all other cases" is false. -/
theorem c9_counterexample :
    Configuration.post_init badPortConfig true ≠ none
    ∧ ¬(badPortConfig.polling_interval_seconds < 10
        ∨ badPortConfig.max_retry_interval_seconds
            < badPortConfig.polling_interval_seconds) := by
  decide

/-- C9 (amended): provided the seven required string fields are non-empty,
both ports lie in 1–65535 and the whitelist regex compiles, construction
fails iff the poll interval is below the enforced floor of 10 or the backoff
ceiling is less than the poll interval. -/
theorem c9_construction_validation (c : Configuration)
    (h1 : c.imap_host ≠ "") (h2 : c.imap_username ≠ "")
    (h3 : c.imap_password ≠ "") (h4 : c.smtp_host ≠ "")
    (h5 : c.smtp_username ≠ "") (h6 : c.smtp_password ≠ "")
    (h7 : c.sender_whitelist_regex ≠ "")
    (h8 : 1 ≤ c.imap_port ∧ c.imap_port ≤ 65535)
    (h9 : 1 ≤ c.smtp_port ∧ c.smtp_port ≤ 65535) :
    Configuration.post_init c true ≠ none ↔
      (c.polling_interval_seconds < 10
       ∨ c.max_retry_interval_seconds < c.polling_interval_seconds) := by
  unfold Configuration.post_init Configuration.validate
  by_cases hp : c.polling_interval_seconds < 10 <;>
    by_cases hm : c.max_retry_interval_seconds < c.polling_interval_seconds <;>
    simp [h1, h2, h3, h4, h5, h6, h7, h8.1, h8.2, h9.1, h9.2, hp, hm]

/-- C9 witness: a concrete configuration with valid strings and ports and a
poll interval of 5 fails construction. -/
theorem c9_construction_validation_witness :
    Configuration.post_init
      ⟨"h", 993, "u", "p", "h", 587, "u", "p", "re", [], 5, 900⟩ true ≠ none :=
  (c9_construction_validation
      ⟨"h", 993, "u", "p", "h", 587, "u", "p", "re", [], 5, 900⟩
      (by decide) (by decide) (by decide) (by decide) (by decide) (by decide)
      (by decide) (by decide) (by decide)).mpr (Or.inl (by decide))

/-- A job driven through `mark_processing`, `mark_failed`, `mark_completed`
in that order — a sequence the unguarded methods accept. -/
def jobSeqA : ProcessingJob :=
  runJobOps (ProcessingJob.mk_job 1 0)
    [.markProcessing, .markFailed (.runtimeError "boom") 5, .markCompleted 9]

/-- A job driven back out of the terminal COMPLETED status. -/
def jobSeqB : ProcessingJob :=
  runJobOps (ProcessingJob.mk_job 1 0)
    [.markProcessing, .markCompleted 5, .markProcessing]

/-- C3 counterexample: the mark methods carry no guards, so there are
operation sequences after which the status is COMPLETED while a captured
failure is still recorded, and sequences that leave a terminal status —
refuting the claim's quantification over every sequence of operations. -/
theorem c3_counterexample :
    jobSeqA.status = JobStatus.completed
    ∧ jobSeqA.error = some (.runtimeError "boom")
    ∧ jobSeqB.status = JobStatus.processing := by
  decide

/-- C3 (amended): the mark operations are unguarded, so the claimed
invariants hold along the canonical lifecycle the orchestrator performs —
construction, `mark_processing`, then exactly one terminal mark under a
nondecreasing clock — where the status moves
PENDING→PROCESSING→{COMPLETED|FAILED}, COMPLETED records no failure, and the
completion time is ≥ the start time; arbitrary operation sequences can leave
a terminal status or a COMPLETED status with a recorded failure. -/
theorem c3_canonical_lifecycle (uid t0 t2 : Nat) (e : PyExc) (h : t0 ≤ t2) :
    (ProcessingJob.mk_job uid t0).status = .pending
    ∧ (ProcessingJob.mk_job uid t0).error = none
    ∧ ((ProcessingJob.mk_job uid t0).mark_processing).status = .processing
    ∧ (((ProcessingJob.mk_job uid t0).mark_processing).mark_completed t2).status
        = .completed
    ∧ (((ProcessingJob.mk_job uid t0).mark_processing).mark_completed t2).error
        = none
    ∧ (((ProcessingJob.mk_job uid t0).mark_processing).mark_completed t2).completed_at
        = some t2
    ∧ (((ProcessingJob.mk_job uid t0).mark_processing).mark_completed t2).started_at
        ≤ t2
    ∧ (((ProcessingJob.mk_job uid t0).mark_processing).mark_failed e t2).status
        = .failed
    ∧ (((ProcessingJob.mk_job uid t0).mark_processing).mark_failed e t2).error
        = some e
    ∧ (((ProcessingJob.mk_job uid t0).mark_processing).mark_failed e t2).completed_at
        = some t2
    ∧ (((ProcessingJob.mk_job uid t0).mark_processing).mark_failed e t2).started_at
        ≤ t2 :=
  ⟨rfl, rfl, rfl, rfl, rfl, rfl, h, rfl, rfl, rfl, h⟩

/-- C3 witness: the canonical lifecycle at concrete times 0 and 5. -/
theorem c3_canonical_lifecycle_witness :
    (((ProcessingJob.mk_job 1 0).mark_processing).mark_completed 5).status
        = JobStatus.completed
    ∧ (((ProcessingJob.mk_job 1 0).mark_processing).mark_completed 5).error
        = none :=
  ⟨(c3_canonical_lifecycle 1 0 5 (.runtimeError "x") (by decide)).2.2.2.1,
   (c3_canonical_lifecycle 1 0 5 (.runtimeError "x") (by decide)).2.2.2.2.1⟩

/-- A fetched message. -/
def msg7 : EmailMessage := ⟨7, "sender@example.com", "Invoice", ""⟩

/-- Environment: one unread message from a whitelisted sender with no PDF
attachments; every collaborator call succeeds. -/
def envNoPdf : ProcEnv where
  fetchResult := .ok [msg7]
  whitelisted := fun _ => true
  extracted := fun _ => []
  convertResult := fun _ => .ok []
  replyResult := .ok ()
  notifyResult := .ok ()
  deleteResult := fun _ => .ok ()
  tStart := 10
  tEnd := 20

/-- C2 counterexample: a whitelisted message with no PDF attachments is
discarded exactly as claimed — deleted immediately, no reply, no error
notification — yet a `ProcessingJob` HAS been created (line 88 constructs
the job before `_extract_pdf_attachments` runs), refuting "a Job is created
only after at least one attachment has been extracted". -/
theorem c2_counterexample :
    (process_next_email envNoPdf).deleteCalls = [7]
    ∧ (process_next_email envNoPdf).replyAttempted = false
    ∧ (process_next_email envNoPdf).notifyAttempted = false
    ∧ (process_next_email envNoPdf).jobCreated = true := by
  decide

/-- C2 (amended): every discarded message — non-whitelisted sender, or no
PDF attachments found — is deleted/acknowledged immediately with no reply
and no error notification; on the whitelist-rejection path no Job is
created, while on the no-attachment path a Job has already been created and
marked PROCESSING before extraction, and is then abandoned. -/
theorem c2_discard_paths (env : ProcEnv) (m : EmailMessage)
    (rest : List EmailMessage)
    (hfetch : env.fetchResult = .ok (m :: rest))
    (hdel : env.deleteResult m.uid = .ok ()) :
    (env.whitelisted m.sender = false →
       process_next_email env =
         ⟨[m.uid], false, false, false, false, none, none⟩)
    ∧ (env.whitelisted m.sender = true → env.extracted m = [] →
       process_next_email env =
         ⟨[m.uid], false, false, false, true,
          some ((ProcessingJob.mk_job m.uid env.tStart).mark_processing),
          none⟩) := by
  constructor
  · intro hw
    simp [process_next_email, hfetch, hw, hdel]
  · intro hw hx
    simp [process_next_email, hfetch, hw, hx, hdel]

/-- Environment: one unread message from a non-whitelisted sender. -/
def envNonWhite : ProcEnv where
  fetchResult := .ok [msg7]
  whitelisted := fun _ => false
  extracted := fun _ => []
  convertResult := fun _ => .ok []
  replyResult := .ok ()
  notifyResult := .ok ()
  deleteResult := fun _ => .ok ()
  tStart := 10
  tEnd := 20

/-- C2 witness: the whitelist-rejection path on a concrete environment. -/
theorem c2_discard_paths_witness :
    process_next_email envNonWhite =
      ⟨[7], false, false, false, false, none, none⟩ :=
  (c2_discard_paths envNonWhite msg7 [] rfl rfl).1 rfl

/-- A PDF attachment as extracted. -/
def pdfA : PDFAttachment := ⟨"doc.pdf", "doc", [37], 1, none⟩

/-- A produced page image. -/
def pngA : PNGImage := ⟨"doc_pdf-000.png", "doc.pdf", 1⟩

/-- Environment: processing succeeds through conversion and reply, and then
`delete_message` raises. -/
def envDeleteFails : ProcEnv where
  fetchResult := .ok [msg7]
  whitelisted := fun _ => true
  extracted := fun _ => [pdfA]
  convertResult := fun _ => .ok [pngA]
  replyResult := .ok ()
  notifyResult := .ok ()
  deleteResult := fun _ => .error (.imapError "delete failed")
  tStart := 10
  tEnd := 20

/-- C4 counterexample: when the post-completion `delete_message` call raises,
the inner handler marks the job FAILED — so the job reaches FAILED on a path
where delete/acknowledge WAS invoked (and the success reply had already been
sent), refuting "delete/acknowledge is never invoked for the original
message on that path". -/
theorem c4_counterexample :
    ((process_next_email envDeleteFails).finalJob.map (·.status)
        = some JobStatus.failed)
    ∧ (process_next_email envDeleteFails).deleteCalls = [7]
    ∧ (process_next_email envDeleteFails).replySent = true := by
  decide

/-- C4 (amended): for every job reaching FAILED, the failure is recorded on
the job, a diagnostic reply to the sender is attempted, and a failure while
sending that diagnostic is caught and only logged — the per-cycle operation
raises nothing; delete/acknowledge is not invoked on that path unless the
recorded failure is the delete/acknowledge call itself raising (which can
happen only after the job was completed and the reply sent, or when
discarding an attachment-less message). -/
theorem c4_failed_path (env : ProcEnv) (m : EmailMessage)
    (rest : List EmailMessage) (j : ProcessingJob)
    (hfetch : env.fetchResult = .ok (m :: rest))
    (hjob : (process_next_email env).finalJob = some j)
    (hfail : j.status = .failed) :
    j.error.isSome = true
    ∧ (process_next_email env).notifyAttempted = true
    ∧ (process_next_email env).raised = none
    ∧ ((process_next_email env).deleteCalls ≠ [] →
        ∃ e, env.deleteResult m.uid = .error e ∧ j.error = some e) := by
  by_cases hw : env.whitelisted m.sender = false
  · cases hd : env.deleteResult m.uid with
    | ok u =>
      simp [process_next_email, hfetch, hw, hd] at hjob
    | error e =>
      simp [process_next_email, hfetch, hw, hd] at hjob
  · have hw' : env.whitelisted m.sender = true := by
      cases hwb : env.whitelisted m.sender
      · exact absurd hwb hw
      · rfl
    cases hx : env.extracted m with
    | nil =>
      cases hd : env.deleteResult m.uid with
      | ok u =>
        simp [process_next_email, hfetch, hw', hx, hd] at hjob
        rw [← hjob] at hfail
        simp [ProcessingJob.mk_job, ProcessingJob.mark_processing] at hfail
      | error e =>
        simp [process_next_email, hfetch, hw', hx, hd] at hjob
        subst hjob
        refine ⟨rfl, ?_, ?_, ?_⟩ <;>
          simp [process_next_email, hfetch, hw', hx, hd,
                ProcessingJob.mark_failed]
    | cons pdf pdfs =>
      rcases hconv : convertFold env.convertResult (pdf :: pdfs)
        with ⟨updPdfs, pngs, convErr⟩
      cases convErr with
      | some e =>
        simp [process_next_email, hfetch, hw', hx, hconv] at hjob
        subst hjob
        refine ⟨rfl, ?_, ?_, ?_⟩ <;>
          simp [process_next_email, hfetch, hw', hx, hconv]
      | none =>
        cases hr : env.replyResult with
        | error e =>
          simp [process_next_email, hfetch, hw', hx, hconv, hr] at hjob
          subst hjob
          refine ⟨rfl, ?_, ?_, ?_⟩ <;>
            simp [process_next_email, hfetch, hw', hx, hconv, hr]
        | ok u =>
          cases hd : env.deleteResult m.uid with
          | ok v =>
            simp [process_next_email, hfetch, hw', hx, hconv, hr, hd] at hjob
            rw [← hjob] at hfail
            simp [ProcessingJob.mark_completed] at hfail
          | error e =>
            simp [process_next_email, hfetch, hw', hx, hconv, hr, hd] at hjob
            subst hjob
            refine ⟨rfl, ?_, ?_, ?_⟩ <;>
              simp [process_next_email, hfetch, hw', hx, hconv, hr, hd,
                    ProcessingJob.mark_failed]

/-- Environment: conversion of the single attachment raises a corruption
failure, and the subsequent error-notification send itself fails. -/
def envConvFails : ProcEnv where
  fetchResult := .ok [msg7]
  whitelisted := fun _ => true
  extracted := fun _ => [pdfA]
  convertResult := fun _ => .error (.pdfConv (.corrupted "bad"))
  replyResult := .ok ()
  notifyResult := .error (.smtpError "smtp down")
  deleteResult := fun _ => .ok ()
  tStart := 10
  tEnd := 20

/-- The job `envConvFails` leaves behind. -/
def failedJobConv : ProcessingJob :=
  ((process_next_email envConvFails).finalJob).getD (ProcessingJob.mk_job 0 0)

/-- C4 witness: a concrete failed conversion records the failure, attempts
the diagnostic (whose own failure is swallowed), and invokes no delete. -/
theorem c4_failed_path_witness :
    failedJobConv.error.isSome = true
    ∧ (process_next_email envConvFails).notifyAttempted = true
    ∧ (process_next_email envConvFails).raised = none
    ∧ ((process_next_email envConvFails).deleteCalls ≠ [] →
        ∃ e, envConvFails.deleteResult msg7.uid = .error e
          ∧ failedJobConv.error = some e) :=
  c4_failed_path envConvFails msg7 [] failedJobConv rfl (by decide) (by decide)

/-- C1 (code bug): `job_processor.py` never imports `IMAPConnectionError`,
so the moment any exception — including the `IMAPError` that
`fetch_unseen_messages` raises on connection loss, and even an
`IMAPConnectionError` itself — escapes `process_next_email`, evaluating the
first `except` clause raises `NameError` and `run_daemon` terminates without
ever invoking `connect_with_backoff`; additionally, the handler names the
subclass `IMAPConnectionError` while the fetch step raises the superclass
`IMAPError`, which would not match even with the import fixed. -/
theorem c1_daemon_crash :
    resolvesInJobProcessor "IMAPConnectionError" = false
    ∧ run_daemon_cycle (some .imapErrorCls) = .exitedWith .nameErrorCls
    ∧ run_daemon_cycle (some .imapConnectionErrorCls)
        = .exitedWith .nameErrorCls
    ∧ PyClassId.isSubclassOf .imapErrorCls .imapConnectionErrorCls = false := by
  decide

/-- C10: each of the four data operations raises (`IMAPError` resp.
`SMTPError`) when invoked with no established connection, and none of them
establishes a connection in doing so. -/
theorem c10_guards (ist : IMAPServiceState) (sst : SMTPServiceState)
    (hi : ist.connection = none) (hs : sst.connection = none) :
    (∀ server, (fetch_unseen_messages ist server).1 =
        .error (.imapError "IMAP connection not established. Call connect() first.")
      ∧ (fetch_unseen_messages ist server).2.connection = none)
    ∧ (∀ uid server, (delete_message ist uid server).1 =
        .error (.imapError "IMAP connection not established. Call connect() first.")
      ∧ (delete_message ist uid server).2.connection = none)
    ∧ (∀ server, (send_reply_with_attachments sst server).1 =
        .error (.smtpError "SMTP connection not established. Call connect() first.")
      ∧ (send_reply_with_attachments sst server).2.connection = none)
    ∧ (∀ server, (send_error_notification sst server).1 =
        .error (.smtpError "SMTP connection not established. Call connect() first.")
      ∧ (send_error_notification sst server).2.connection = none) := by
  refine ⟨fun server => ?_, fun uid server => ?_, fun server => ?_,
          fun server => ?_⟩ <;>
    constructor <;>
    simp [fetch_unseen_messages, delete_message, send_reply_with_attachments,
          send_error_notification, hi, hs]

/-- C10 witness: the fetch guard fires on a concrete disconnected state. -/
theorem c10_guards_witness :
    (fetch_unseen_messages ⟨none⟩ (.ok [])).1 =
      .error (.imapError "IMAP connection not established. Call connect() first.") :=
  ((c10_guards ⟨none⟩ ⟨none⟩ rfl rfl).1 (.ok [])).1

end PdfMail
